import Mathlib

set_option autoImplicit false

/-! Shallow embedding of the cogen socket layer (src/cogen/core/sockets.py)
and of the WSGI server accept loop (src/cogen/web/wsgi.py). The runtime
modules the repository references but does not ship under src (events,
proactors/reactors, schedulers) are modelled from the specification where a
claim needs them; each such definition carries a doc comment starting with
"Modelled from the spec". -/

/-- Timeout values: Python None is `none`; a numeric timeout t is `some t`.
Numeric timeouts are modelled as integers; -1 is the value the WSGI server
passes to mean no timeout. -/
abbrev Tmo := Option Int

/-- Peer or bind addresses, modelled as host-port pairs. -/
abbrev Addr := String × Nat

/-- Error kinds raised by the embedded code. -/
inductive PyErr where
  | RuntimeError
  | TypeError
  | ConnectionClosed
  | SocketError
deriving DecidableEq, Repr

/-- The underlying OS socket object returned by socket.socket: its
descriptor, its blocking flag, and whether listen has been called on it. -/
structure PySocket where
  fd : Nat
  blocking : Bool
  listening : Bool
deriving DecidableEq, Repr

/-- Embeds socket.socket(family, type, proto): a fresh OS socket starts in
blocking mode and is not listening. -/
def socket_socket (fd : Nat) : PySocket :=
  { fd := fd, blocking := true, listening := false }

/-- Embeds the OS-level setblocking call on the raw socket object. -/
def PySocket.setblocking (s : PySocket) (val : Bool) : PySocket :=
  { s with blocking := val }

/-- The module state of cogen.core.sockets: the module-level default
timeout global named _TIMEOUT (initially None). -/
structure SocketsModuleState where
  _TIMEOUT : Tmo
deriving DecidableEq, Repr

/-- Embeds getdefaulttimeout: returns the module global _TIMEOUT. -/
def getdefaulttimeout (st : SocketsModuleState) : Tmo := st._TIMEOUT

/-- Embeds setdefaulttimeout. In the source its body is the bare assignment
of the argument to the name _TIMEOUT with no global declaration, so Python
binds a function-local name and the module global is left unchanged. -/
def setdefaulttimeout (timeout : Tmo) (st : SocketsModuleState) : SocketsModuleState :=
  let _TIMEOUT_local := timeout
  st

/-- The Socket wrapper; its slots are _fd, _timeout and _reactor_added. -/
structure Socket where
  _fd : PySocket
  _timeout : Tmo
  _reactor_added : Bool
deriving DecidableEq, Repr

/-- Embeds Socket.__init__: wraps a fresh OS socket, unconditionally calls
setblocking(0) on it, takes the module default timeout as the per-socket
timeout, and starts unregistered with the reactor. -/
def Socket.init (st : SocketsModuleState) (fd : Nat) : Socket :=
  { _fd := (socket_socket fd).setblocking false
  , _timeout := st._TIMEOUT
  , _reactor_added := false }

/-- Embeds Socket.setblocking: on a truthy argument it raises RuntimeError;
on a falsy argument it just returns, leaving the socket untouched. The
argument is an integer whose truthiness Python tests. -/
def Socket.setblocking (s : Socket) (val : Int) : Except PyErr Socket :=
  if val ≠ 0 then .error .RuntimeError else .ok s

/-- Embeds Socket.settimeout: stores the value as the per-socket timeout. -/
def Socket.settimeout (s : Socket) (t : Tmo) : Socket :=
  { s with _timeout := t }

/-- Embeds Socket.gettimeout: returns the per-socket timeout. -/
def Socket.gettimeout (s : Socket) : Tmo := s._timeout

/-- Embeds Socket.fileno: the descriptor of the wrapped OS socket. -/
def Socket.fileno (s : Socket) : Nat := s._fd.fd

/-- Embeds Socket.listen: puts the wrapped OS socket into listening mode
(the backlog bound is not observable in this model). -/
def Socket.listen (s : Socket) (backlog : Nat) : Socket :=
  let _backlog := backlog
  { s with _fd := { s._fd with listening := true } }

/-- The Python classes of the operation hierarchy in sockets.py. -/
inductive PyClass where
  | objectC
  | TimedOperationC
  | SocketOperationC
  | WriteOperationC
  | RecvC
  | SendC
  | SendAllC
  | AcceptC
  | ConnectC
  | SendFileC
deriving DecidableEq, Repr

/-- Proper ancestors of each class, per the class statements in the source:
SocketOperation extends events.TimedOperation, the Recv, Send, SendAll,
Accept and Connect operations extend SocketOperation, and SendFile extends
the write-operation base. -/
def pyAncestors : PyClass → List PyClass
  | .objectC => []
  | .TimedOperationC => [.objectC]
  | .SocketOperationC => [.TimedOperationC, .objectC]
  | .WriteOperationC => [.SocketOperationC, .TimedOperationC, .objectC]
  | .RecvC => [.SocketOperationC, .TimedOperationC, .objectC]
  | .SendC => [.SocketOperationC, .TimedOperationC, .objectC]
  | .SendAllC => [.SocketOperationC, .TimedOperationC, .objectC]
  | .AcceptC => [.SocketOperationC, .TimedOperationC, .objectC]
  | .ConnectC => [.SocketOperationC, .TimedOperationC, .objectC]
  | .SendFileC => [.WriteOperationC, .SocketOperationC, .TimedOperationC, .objectC]

/-- Whether c is d or a subclass of d. -/
def isSubclass (c d : PyClass) : Bool :=
  c == d || (pyAncestors c).contains d

/-- Embeds the Python rule that a super call naming class T on an object
obj is only legal when the class of obj is T or a subclass of T; otherwise
the call raises TypeError. -/
def superCallOk (objClass target : PyClass) : Bool :=
  isSubclass objClass target

/-- Modelled from the spec: the constructor of the events.TimedOperation
base class (the events module is not under src) takes a timeout keyword
whose default is no deadline, per "timeout (absolute deadline or none)". -/
def defaultOpTimeout : Tmo := none

/-- The Recv operation; its slots add buff and len. -/
structure Recv where
  sock : Socket
  len : Nat
  timeout : Tmo
  buff : Option (List Nat)
deriving DecidableEq, Repr

/-- Embeds Recv.__init__ (reading the superclass naming consistently, as
the spec directs): stores the socket and the length, buff starts as None,
and the timeout keyword goes to the TimedOperation base. -/
def Recv.init (sock : Socket) (len : Nat) (timeout : Tmo) : Recv :=
  { sock := sock, len := len, timeout := timeout, buff := none }

/-- The Send operation; its slots add sent (and the stored buffer). -/
structure Send where
  sock : Socket
  buff : List Nat
  sent : Nat
  timeout : Tmo
deriving DecidableEq, Repr

/-- Embeds Send.__init__: stores the buffer and starts sent at zero. -/
def Send.init (sock : Socket) (buff : List Nat) (timeout : Tmo) : Send :=
  { sock := sock, buff := buff, sent := 0, timeout := timeout }

/-- The SendAll operation; its slots are sent and buff. -/
structure SendAll where
  sock : Socket
  buff : List Nat
  sent : Nat
  timeout : Tmo
deriving DecidableEq, Repr

/-- Embeds SendAll.__init__, which stores the buffer. The sent counter
starting at zero is modelled from the spec, since the write-operation base
that owns it is not under src. -/
def SendAll.init (sock : Socket) (buff : List Nat) (timeout : Tmo) : SendAll :=
  { sock := sock, buff := buff, sent := 0, timeout := timeout }

/-- The Accept operation; its slots are conn and addr. The source sets only
conn to None in __init__; addr stays unset until the proactor fills it, and
both are modelled as options. -/
structure Accept where
  sock : Socket
  conn : Option Socket
  addr : Option Addr
  timeout : Tmo
deriving DecidableEq, Repr

/-- Embeds Accept.__init__: conn starts as None. -/
def Accept.init (sock : Socket) (timeout : Tmo) : Accept :=
  { sock := sock, conn := none, addr := none, timeout := timeout }

/-- The Connect operation; its slots are addr, conn and a connect flag. -/
structure Connect where
  sock : Socket
  addr : Addr
  conn : Option Socket
  timeout : Tmo
deriving DecidableEq, Repr

/-- Embeds Connect.__init__: stores the address; conn stays unset until the
proactor fills it. -/
def Connect.init (sock : Socket) (addr : Addr) (timeout : Tmo) : Connect :=
  { sock := sock, addr := addr, conn := none, timeout := timeout }

/-- Embeds Socket.recv: returns a Recv built with the per-socket timeout. -/
def Socket.recv (s : Socket) (bufsize : Nat) : Recv :=
  Recv.init s bufsize s._timeout

/-- Embeds Socket.send: returns a Send built with the per-socket timeout. -/
def Socket.send (s : Socket) (data : List Nat) : Send :=
  Send.init s data s._timeout

/-- Embeds Socket.sendall: returns a SendAll built with the per-socket
timeout. -/
def Socket.sendall (s : Socket) (data : List Nat) : SendAll :=
  SendAll.init s data s._timeout

/-- Embeds Socket.accept: returns an Accept built from the keyword
arguments only; the per-socket timeout is not passed, so absent an explicit
timeout keyword the operation gets the TimedOperation default. -/
def Socket.accept (s : Socket) (kwTimeout : Option Tmo) : Accept :=
  Accept.init s (kwTimeout.getD defaultOpTimeout)

/-- Embeds Socket.connect: returns a Connect built from the address and the
keyword arguments only; the per-socket timeout is not passed. -/
def Socket.connect (s : Socket) (address : Addr) (kwTimeout : Option Tmo) : Connect :=
  Connect.init s address (kwTimeout.getD defaultOpTimeout)

/-- Embeds Accept.finalize: the super call names Accept, which is legal on
an Accept instance; the base finalize (modelled from the spec as timeout
bookkeeping with no result) runs and the pair (conn, addr) is returned. -/
def Accept.finalize (op : Accept) : Except PyErr (Option Socket × Option Addr) :=
  if superCallOk .AcceptC .AcceptC then .ok (op.conn, op.addr) else .error .TypeError

/-- Embeds Connect.finalize exactly as written in the source: its super
call names Accept, not Connect, and a Connect instance is not an Accept
instance, so the call raises TypeError before op.conn can be returned. -/
def Connect.finalize (op : Connect) : Except PyErr (Option Socket) :=
  if superCallOk .ConnectC .AcceptC then .ok op.conn else .error .TypeError

/-- Modelled from the spec: the proactor completion of an Accept operation
(the proactor modules are not under src). The OS accept call yields a fresh
descriptor and the peer address; the new socket is wrapped like any Socket,
so it inherits non-blocking mode, and conn and addr are stored on the
operation. -/
def proactorCompleteAccept (st : SocketsModuleState) (op : Accept)
    (newfd : Nat) (peer : Addr) : Accept :=
  { op with conn := some (Socket.init st newfd), addr := some peer }

/-- Modelled from the spec: the readiness proactor services a SendAll by
attempting a send on each readiness event and looping across partial
writes (the proactor modules are not under src). On each event the OS
hands over at most the remaining part of the buffer, the sent counter
advances by the amount handed over, and the operation completes exactly
when the whole buffer has been handed over. The list gives the byte count
the OS accepts on each successive readiness event; the result is the
completed operation, or none while the operation is still pending when the
events run out. -/
def proactorSendAllRun : SendAll → List Nat → Option SendAll
  | op, [] => if op.sent = op.buff.length then some op else none
  | op, k :: ks =>
    if op.sent = op.buff.length then some op
    else proactorSendAllRun { op with sent := op.sent + min k (op.buff.length - op.sent) } ks

/-- Modelled from the spec: the finalized value a completed SendAll
delivers to the resumed task is its sent counter (the base machinery that
owns finalize is not under src; the spec table gives the SendAll result). -/
def SendAll.finalize (op : SendAll) : Nat := op.sent

/-- The OS descriptor table, reduced to the set of closed descriptors. -/
structure OSState where
  closedFds : List Nat
deriving DecidableEq, Repr

/-- Whether a descriptor has been closed. -/
def fdClosed (os : OSState) (fd : Nat) : Bool :=
  os.closedFds.contains fd

/-- Embeds Socket.close: the close call on the wrapped OS socket destroys
the descriptor. -/
def Socket.close (s : Socket) (os : OSState) : OSState :=
  { os with closedFds := s.fileno :: os.closedFds }

/-- A pending proactor registration: the waiting task and the descriptor
of the socket its operation references. -/
structure PendingEntry where
  task : Nat
  fd : Nat
deriving DecidableEq, Repr

/-- What a task is resumed with at the end of a scheduler iteration. -/
inductive Resumption where
  | completed (task : Nat)
  | failed (task : Nat) (err : PyErr)
deriving DecidableEq, Repr

/-- Modelled from the spec: one scheduler iteration over the proactor
queues (the scheduler and proactor modules are not under src). Every
pending operation whose descriptor is closed fails with ConnectionClosed
and leaves the queues; a pending operation on a live, ready descriptor
completes normally; the rest stay pending. -/
def proactorIteration (os : OSState) (ready : Nat → Bool)
    (ps : List PendingEntry) : List Resumption × List PendingEntry :=
  ( ps.filterMap fun e =>
      if fdClosed os e.fd then some (.failed e.task .ConnectionClosed)
      else if ready e.fd then some (.completed e.task)
      else none
  , ps.filter fun e => !fdClosed os e.fd && !ready e.fd )

/-- The SendFile operation; its slots add sent, file_handle, offset,
position, length and blocksize. The file handle is an opaque id. -/
structure SendFile where
  sock : Socket
  file_handle : Nat
  offset : Nat
  position : Nat
  length : Option Nat
  sent : Nat
  blocksize : Nat
  timeout : Tmo
deriving DecidableEq, Repr

/-- Embeds the Python expression that defaults the offset: a missing or
zero offset argument falls back to the tell() position of the file. -/
def offsetOrTell (offset : Option Nat) (tell : Nat) : Nat :=
  match offset with
  | some o => if o = 0 then tell else o
  | none => tell

/-- Embeds SendFile.__init__: offset and position both get the defaulted
offset, length and blocksize are stored, and sent starts at zero. -/
def SendFile.init (file_handle : Nat) (sock : Socket) (offset : Option Nat)
    (length : Option Nat) (blocksize : Nat) (tell : Nat) (timeout : Tmo) : SendFile :=
  { sock := sock, file_handle := file_handle
  , offset := offsetOrTell offset tell, position := offsetOrTell offset tell
  , length := length, sent := 0, blocksize := blocksize, timeout := timeout }

/-- Embeds the Python comparison of the sent counter with self.length,
where length may be None: an integer never equals None. -/
def pyEqNat (sent : Nat) : Option Nat → Bool
  | some l => sent == l
  | none => false

/-- Embeds Python truthiness of self.length: None and 0 are falsy. -/
def lengthTruthy : Option Nat → Bool
  | some l => l != 0
  | none => false

/-- Result of one SendFile.run attempt: the updated operation, whether run
returned self (operation complete), and the byte count requested from the
send call (none when no send was attempted). -/
structure SendFileRunResult where
  op : SendFile
  completed : Bool
  requested : Option Nat
deriving DecidableEq, Repr

/-- Embeds SendFile.run. osAccept gives, for a requested byte count, the
count the send call reports as sent. When sent already equals a given
length, run returns self at once. With a truthy length the attempt
requests the smaller of the remainder and blocksize, or the whole
remainder when blocksize is 0, and returns self once sent reaches length.
Without one, both blocksize branches request exactly blocksize and run
returns self on the first attempt whose send reports 0 bytes. -/
def SendFile.run (op : SendFile) (osAccept : Nat → Nat) : SendFileRunResult :=
  if pyEqNat op.sent op.length then
    { op := op, completed := true, requested := none }
  else if lengthTruthy op.length then
    let l := op.length.getD 0
    let req := if op.blocksize ≠ 0 then min (l - op.sent) op.blocksize else l - op.sent
    let k := osAccept req
    let op2 := { op with sent := op.sent + k }
    { op := op2, completed := pyEqNat op2.sent op2.length, requested := some req }
  else
    let req := op.blocksize
    let k := osAccept req
    let op2 := { op with sent := op.sent + k }
    { op := op2, completed := k == 0, requested := some req }

/-- Modelled from the spec: the finalized result of a completed SendFile
is the total byte count sent (the base machinery that owns finalize is not
under src; the spec table gives the SendFile result). -/
def SendFile.finalize (op : SendFile) : Nat := op.sent

/-- Drives successive SendFile.run attempts; the list gives the byte count
the OS reports for each attempt, and the result is the completed
operation, or none when the attempts run out first. -/
def SendFile.attempts : SendFile → List Nat → Option SendFile
  | _, [] => none
  | op, k :: ks =>
    let r := SendFile.run op (fun _ => k)
    if r.completed then some r.op else SendFile.attempts r.op ks

/-- The run-queue priority tags of cogen.core.util.priority. -/
inductive SchedPriority where
  | FIRST
  | DEFAULT
  | LAST
deriving DecidableEq, Repr

/-- The per-connection handler state the accept loop sets up; it keeps the
accepted socket (as self.conn) and the sendfile timeout. -/
structure WSGIConnection where
  conn : Socket
  sendfile_timeout : Int
deriving DecidableEq, Repr

/-- Embeds the part of WSGIConnection.__init__ the accept loop exercises:
the accepted socket is stored as self.conn together with the sendfile
timeout. -/
def WSGIConnection.init (sock : Socket) (sendfile_timeout : Int) : WSGIConnection :=
  { conn := sock, sendfile_timeout := sendfile_timeout }

/-- Modelled from the spec: events.AddCoro, the operation form of spawn
(the events module is not under src); it carries the connection handler
whose run method is to start as a new task, and a scheduling priority. -/
structure AddCoro where
  coro : WSGIConnection
  prio : SchedPriority
deriving DecidableEq, Repr

/-- The WSGI server state the serve loop reads. -/
structure WSGIServer where
  socket : Socket
  request_queue_size : Nat
  sockoper_timeout : Int
  sendfile_timeout : Int
  sockaccept_greedy : Bool
deriving DecidableEq, Repr

/-- Embeds WSGIServer.bind: creates the actual Socket (whose constructor
already sets non-blocking mode) and calls setblocking(0) on it, which
returns normally and changes nothing in this model. -/
def WSGIServer.bindSocket (st : SocketsModuleState) (fd : Nat) : Socket :=
  Socket.init st fd

/-- Embeds the setup part of WSGIServer.serve: bind the listening socket
and call listen(request_queue_size) on it. -/
def WSGIServer.serveSetup (st : SocketsModuleState) (fd : Nat)
    (request_queue_size : Nat) : Socket :=
  (WSGIServer.bindSocket st fd).listen request_queue_size

/-- One value yielded by the serve loop. -/
inductive ServeYield where
  | acceptOp (op : Accept)
  | addCoroOp (op : AddCoro)
deriving DecidableEq, Repr

/-- Embeds one iteration of the while-True loop in WSGIServer.serve, given
the (socket, address) pair its Accept completed with: the loop yields
sockets.Accept(self.socket, timeout=-1), calls settimeout with
sockoper_timeout on the accepted socket, builds the connection handler on
that socket, and yields events.AddCoro for the handler with priority LAST
when sockaccept_greedy is set and FIRST otherwise. -/
def WSGIServer.serveIteration (srv : WSGIServer) (acc : Socket × Addr) : List ServeYield :=
  let acceptYield := Accept.init srv.socket (some (-1))
  let s := acc.1.settimeout (some srv.sockoper_timeout)
  let conn := WSGIConnection.init s srv.sendfile_timeout
  [ .acceptOp acceptYield
  , .addCoroOp { coro := conn, prio := if srv.sockaccept_greedy then .LAST else .FIRST } ]

/-- The serve loop runs forever; over any finite list of accepted
connections its yield trace is the concatenation of the per-iteration
yields. -/
def WSGIServer.serveTrace (srv : WSGIServer) (accs : List (Socket × Addr)) : List ServeYield :=
  accs.flatMap srv.serveIteration

/-- A concrete module state (default timeout None) used by witnesses. -/
def stDemo : SocketsModuleState := { _TIMEOUT := none }

/-- C3: Socket construction puts the descriptor into non-blocking mode
unconditionally; afterwards setblocking raises RuntimeError on every
truthy argument, while setblocking(0) returns the socket unchanged, so
non-blocking mode stays in effect. -/
theorem socket_nonblocking_unconditional (st : SocketsModuleState) (fd : Nat)
    (v : Int) (hv : v ≠ 0) :
    (Socket.init st fd)._fd.blocking = false
    ∧ (Socket.init st fd).setblocking v = .error .RuntimeError
    ∧ (Socket.init st fd).setblocking 0 = .ok (Socket.init st fd)
    ∧ ((Socket.init st fd).setblocking 0).map (fun s => s._fd.blocking) = .ok false := by
  refine ⟨rfl, ?_, rfl, rfl⟩
  simp [Socket.setblocking, hv]

/-- Witness for C3 at the truthy argument 1 and descriptor 3. -/
theorem socket_nonblocking_unconditional_witness :
    (Socket.init stDemo 3)._fd.blocking = false
    ∧ (Socket.init stDemo 3).setblocking 1 = .error .RuntimeError
    ∧ (Socket.init stDemo 3).setblocking 0 = .ok (Socket.init stDemo 3)
    ∧ ((Socket.init stDemo 3).setblocking 0).map (fun s => s._fd.blocking) = .ok false :=
  socket_nonblocking_unconditional stDemo 3 1 (by decide)

/-- C4 (code bug): evaluating Connect.finalize as written on a concrete
completed Connect: the super call names Accept, and a Connect instance is
not an Accept instance, so finalize raises TypeError instead of returning
the connected socket. -/
theorem connect_finalize_raises_typeerror :
    Connect.finalize
      { sock := Socket.init stDemo 4
      , addr := ("127.0.0.1", 80)
      , conn := some (Socket.init stDemo 4)
      , timeout := none }
      = .error .TypeError := rfl

/-- C6: after settimeout t, gettimeout returns t and the operations built
by recv, send and sendall all carry timeout t. -/
theorem settimeout_inherited_by_operations (s : Socket) (t : Tmo) (n : Nat)
    (b : List Nat) :
    (s.settimeout t).gettimeout = t
    ∧ ((s.settimeout t).recv n).timeout = t
    ∧ ((s.settimeout t).send b).timeout = t
    ∧ ((s.settimeout t).sendall b).timeout = t :=
  ⟨rfl, rfl, rfl, rfl⟩

/-- C7: finalize of a proactor-completed Accept returns the pair of the
new accepted socket and the peer address, and the new socket is
non-blocking. -/
theorem accept_finalize_pair (st : SocketsModuleState) (op : Accept)
    (newfd : Nat) (peer : Addr) :
    (proactorCompleteAccept st op newfd peer).finalize
      = .ok (some (Socket.init st newfd), some peer)
    ∧ (Socket.init st newfd)._fd.blocking = false :=
  ⟨rfl, rfl⟩

/-- C8: serve opens a listening socket; each loop iteration yields an
Accept on that listening socket with timeout -1, gives the accepted socket
the configured sockoper_timeout as its per-socket timeout, and yields an
AddCoro spawning the connection handler built on that socket; over any
list of accepted connections the trace is exactly these two yields per
iteration. -/
theorem wsgi_serve_loop (st : SocketsModuleState) (fd qsize : Nat)
    (srv : WSGIServer) (sa : Socket × Addr) (accs : List (Socket × Addr)) :
    (WSGIServer.serveSetup st fd qsize)._fd.listening = true
    ∧ srv.serveIteration sa
        = [ ServeYield.acceptOp (Accept.init srv.socket (some (-1)))
          , ServeYield.addCoroOp
              { coro := WSGIConnection.init
                  (sa.1.settimeout (some srv.sockoper_timeout)) srv.sendfile_timeout
              , prio := if srv.sockaccept_greedy then .LAST else .FIRST } ]
    ∧ (Accept.init srv.socket (some (-1))).sock = srv.socket
    ∧ (Accept.init srv.socket (some (-1))).timeout = some (-1)
    ∧ (WSGIConnection.init (sa.1.settimeout (some srv.sockoper_timeout))
          srv.sendfile_timeout).conn.gettimeout = some srv.sockoper_timeout
    ∧ srv.serveTrace accs = accs.flatMap srv.serveIteration :=
  ⟨rfl, rfl, rfl, rfl, rfl, rfl⟩

/-- C9: setdefaulttimeout binds a function-local name, so the module
default is unchanged: getdefaulttimeout agrees before and after the call,
and a Socket constructed after the call still receives the unchanged
default as its per-socket timeout. -/
theorem setdefaulttimeout_no_effect (t : Tmo) (st : SocketsModuleState) (fd : Nat) :
    getdefaulttimeout (setdefaulttimeout t st) = getdefaulttimeout st
    ∧ (Socket.init (setdefaulttimeout t st) fd)._timeout = getdefaulttimeout st :=
  ⟨rfl, rfl⟩

/-- C10: accept and connect do not pass the per-socket timeout: whatever
settimeout stored, without an explicit timeout keyword they carry the
TimedOperation default, unlike recv, which carries the per-socket value;
an explicit timeout keyword is honoured. -/
theorem accept_connect_ignore_socket_timeout (s : Socket) (t u : Tmo)
    (a : Addr) (n : Nat) :
    ((s.settimeout t).accept none).timeout = defaultOpTimeout
    ∧ ((s.settimeout t).connect a none).timeout = defaultOpTimeout
    ∧ ((s.settimeout t).recv n).timeout = t
    ∧ ((s.settimeout t).accept (some u)).timeout = u
    ∧ ((s.settimeout t).connect a (some u)).timeout = u :=
  ⟨rfl, rfl, rfl, rfl, rfl⟩

/-- Helper for C1: a successful proactorSendAllRun keeps the buffer and
ends with the sent counter equal to the buffer length. -/
theorem proactorSendAllRun_sent_eq (evs : List Nat) :
    ∀ op op2 : SendAll, proactorSendAllRun op evs = some op2 →
      op2.buff = op.buff ∧ op2.sent = op2.buff.length := by
  induction evs with
  | nil =>
    intro op op2 h
    by_cases hs : op.sent = op.buff.length
    · simp only [proactorSendAllRun, if_pos hs] at h
      cases h
      exact ⟨rfl, hs⟩
    · simp only [proactorSendAllRun, if_neg hs] at h
      exact absurd h (by simp)
  | cons k ks ih =>
    intro op op2 h
    by_cases hs : op.sent = op.buff.length
    · simp only [proactorSendAllRun, if_pos hs] at h
      cases h
      exact ⟨rfl, hs⟩
    · simp only [proactorSendAllRun, if_neg hs] at h
      have h2 := ih _ _ h
      exact ⟨h2.1, h2.2⟩

/-- C1: when a SendAll terminates successfully, the number of bytes handed
to the OS send buffer equals the full buffer length, and the finalized
value delivered to the resumed task is that length. -/
theorem sendall_result_full_length (s : Socket) (b evs : List Nat)
    (op2 : SendAll) (h : proactorSendAllRun (s.sendall b) evs = some op2) :
    op2.sent = b.length ∧ SendAll.finalize op2 = b.length := by
  have h2 := proactorSendAllRun_sent_eq evs (s.sendall b) op2 h
  have hb : op2.buff = b := h2.1
  constructor
  · rw [h2.2, hb]
  · show op2.sent = b.length
    rw [h2.2, hb]

/-- The completed SendAll that the C1 witness run ends in. -/
def sendallDemoFinal : SendAll :=
  { sock := Socket.init stDemo 7, buff := [10, 20, 30], sent := 3, timeout := none }

/-- Witness for C1: a three-byte buffer sent across partial writes of 2
and 1 bytes completes with result 3, the buffer length. -/
theorem sendall_result_full_length_witness :
    sendallDemoFinal.sent = 3 ∧ SendAll.finalize sendallDemoFinal = 3 :=
  sendall_result_full_length (Socket.init stDemo 7) [10, 20, 30] [2, 1]
    sendallDemoFinal rfl

/-- C2: after Socket.close, in the next scheduler iteration every pending
operation on that socket resumes its task with ConnectionClosed and leaves
the pending queues; moreover a closed descriptor stays closed under any
later close, so no pending operation on the socket completes normally
afterwards. -/
theorem close_cancels_pending (s : Socket) (os : OSState) (ready : Nat → Bool)
    (ps : List PendingEntry) (e : PendingEntry)
    (he : e ∈ ps) (hfd : e.fd = s.fileno) :
    Resumption.failed e.task .ConnectionClosed
        ∈ (proactorIteration (s.close os) ready ps).1
    ∧ e ∉ (proactorIteration (s.close os) ready ps).2
    ∧ (∀ (s2 : Socket) (os2 : OSState) (fd : Nat),
        fdClosed os2 fd = true → fdClosed (s2.close os2) fd = true) := by
  have hcl : fdClosed (s.close os) e.fd = true := by
    simp [fdClosed, Socket.close, hfd]
  refine ⟨?_, ?_, ?_⟩
  · simp only [proactorIteration]
    exact List.mem_filterMap.2 ⟨e, he, by simp [hcl]⟩
  · intro hmem
    simp [proactorIteration, List.mem_filter, hcl] at hmem
  · intro s2 os2 fd h
    have h2 : fd ∈ os2.closedFds := by simpa [fdClosed] using h
    simp [fdClosed, Socket.close, List.contains_cons, h2]

/-- Witness for C2: one pending operation of task 1 on descriptor 5; after
closing the socket with that descriptor, the next iteration fails task 1
with ConnectionClosed and drops the entry from the pending queue. -/
theorem close_cancels_pending_witness :
    Resumption.failed 1 .ConnectionClosed
        ∈ (proactorIteration (Socket.close (Socket.init stDemo 5) { closedFds := [] })
            (fun _ => true) [{ task := 1, fd := 5 }]).1
    ∧ ({ task := 1, fd := 5 } : PendingEntry)
        ∉ (proactorIteration (Socket.close (Socket.init stDemo 5) { closedFds := [] })
            (fun _ => true) [{ task := 1, fd := 5 }]).2 := by
  have h := close_cancels_pending (Socket.init stDemo 5) { closedFds := [] }
    (fun _ => true) [{ task := 1, fd := 5 }] { task := 1, fd := 5 }
    (by simp) rfl
  exact ⟨h.1, h.2.1⟩

/-- Helper for C5: with no length, SendFile.run skips the top equality
check, both blocksize branches request exactly blocksize, the sent counter
absorbs the reported count, and run returns self exactly when that count
is 0. -/
theorem sendfile_run_no_length (op : SendFile) (k : Nat) (hlen : op.length = none) :
    SendFile.run op (fun _ => k)
      = { op := { op with sent := op.sent + k }, completed := k == 0
        , requested := some op.blocksize } := by
  simp [SendFile.run, pyEqNat, lengthTruthy, hlen]

/-- Helper for C5: with no length and all reported counts nonzero, the
attempts never complete. -/
theorem sendfile_attempts_all_nonzero (ks : List Nat) :
    ∀ op : SendFile, op.length = none → (∀ k ∈ ks, k ≠ 0) →
      SendFile.attempts op ks = none := by
  induction ks with
  | nil => intro op _ _; rfl
  | cons k ks ih =>
    intro op hlen hk
    have hk0 : k ≠ 0 := hk k (by simp)
    have hkb : (k == 0) = false := by simpa using hk0
    simp only [SendFile.attempts, sendfile_run_no_length op k hlen, hkb,
      Bool.false_eq_true, if_false]
    exact ih _ (by simpa using hlen) (fun k2 h2 => hk k2 (by simp [h2]))

/-- Helper for C5: with no length and all earlier reported counts nonzero,
the attempts complete exactly at the first 0-byte send, with the sent
counter advanced by the sum of the earlier counts. -/
theorem sendfile_attempts_first_zero (ks : List Nat) :
    ∀ (op : SendFile) (tail : List Nat), op.length = none → (∀ k ∈ ks, k ≠ 0) →
      SendFile.attempts op (ks ++ 0 :: tail)
        = some { op with sent := op.sent + ks.sum } := by
  induction ks with
  | nil =>
    intro op tail hlen _
    simp [SendFile.attempts, sendfile_run_no_length op 0 hlen]
  | cons k ks ih =>
    intro op tail hlen hk
    have hk0 : k ≠ 0 := hk k (by simp)
    have hkb : (k == 0) = false := by simpa using hk0
    simp only [List.cons_append, SendFile.attempts,
      sendfile_run_no_length op k hlen, hkb, Bool.false_eq_true, if_false,
      List.append_eq]
    rw [ih _ tail (by simpa using hlen) (fun k2 h2 => hk k2 (by simp [h2]))]
    simp [List.sum_cons, Nat.add_assoc]

/-- C5: with a given nonzero length and blocksize 0 every attempt requests
the whole remaining requested length in a single send; with length omitted
the operation completes exactly at the first attempt whose send reports
zero bytes, and its finalized result is the total byte count sent. -/
theorem sendfile_blocksize_zero_and_no_length :
    (∀ (op : SendFile) (osAccept : Nat → Nat) (l : Nat),
        op.length = some l → op.blocksize = 0 → op.sent < l →
        (op.run osAccept).requested = some (l - op.sent))
    ∧ (∀ (op : SendFile) (ks tail : List Nat),
        op.length = none → (∀ k ∈ ks, k ≠ 0) →
        SendFile.attempts op ks = none
        ∧ SendFile.attempts op (ks ++ 0 :: tail)
            = some { op with sent := op.sent + ks.sum }
        ∧ SendFile.finalize { op with sent := op.sent + ks.sum }
            = op.sent + ks.sum) := by
  constructor
  · intro op osAccept l hlen hbs hlt
    have h1 : pyEqNat op.sent (some l) = false := by
      simp [pyEqNat]
      omega
    have h2 : lengthTruthy (some l) = true := by
      simp [lengthTruthy]
      omega
    simp [SendFile.run, hlen, h1, h2, hbs]
  · intro op ks tail hlen hk
    exact ⟨sendfile_attempts_all_nonzero ks op hlen hk,
           sendfile_attempts_first_zero ks op tail hlen hk, rfl⟩

/-- Concrete SendFile with length 10 and blocksize 0, for the C5 witness. -/
def sendfileDemoA : SendFile :=
  SendFile.init 1 (Socket.init stDemo 8) (some 100) (some 10) 0 0 none

/-- Concrete SendFile with no length and the default blocksize 4096, for
the C5 witness. -/
def sendfileDemoB : SendFile :=
  SendFile.init 2 (Socket.init stDemo 9) (some 50) none 4096 0 none

/-- Witness for C5: the blocksize-0 SendFile of length 10 requests all 10
remaining bytes at once, and the SendFile without length stays pending
over sends of 5 and 3 bytes, completes at the first 0-byte send, and
finalizes to 8, the total sent. -/
theorem sendfile_blocksize_zero_and_no_length_witness :
    (sendfileDemoA.run (fun q => q)).requested = some 10
    ∧ SendFile.attempts sendfileDemoB [5, 3] = none
    ∧ SendFile.attempts sendfileDemoB [5, 3, 0, 9]
        = some { sendfileDemoB with sent := 8 }
    ∧ SendFile.finalize { sendfileDemoB with sent := 8 } = 8 := by
  have ha := sendfile_blocksize_zero_and_no_length.1 sendfileDemoA
    (fun q => q) 10 rfl rfl (by decide)
  have hb := sendfile_blocksize_zero_and_no_length.2 sendfileDemoB
    [5, 3] [9] rfl (by decide)
  exact ⟨ha, hb.1, hb.2.1, hb.2.2⟩
